import Mathlib

/-!
Verification of the F1 grid-controller codec and change-detection layer.

The development shallowly embeds the C++ sources:
  * `src/src/input_reader_base.cpp` and `src/unnamed/part_003` (input report
    codec: `readInputReport`, the button accessors),
  * `src/src/input_reader_fader.cpp` and `src/unnamed/part_001` (analog
    normalizers and the `ControllerHandler` change-detection layer),
  * `src/src/led_controller_base.cpp` (LED output codec and logical state
    store).
Bytes are modelled as `Nat` (all masks and shifts are taken verbatim from the
source), byte buffers as `List Nat` indexed with `getD _ 0`, C `float`
arithmetic as exact rational arithmetic (`ℚ`) with the C float-to-int cast of
non-negative values rendered as `Int.floor`, and `std::chrono` timestamps as
integer milliseconds.
-/

namespace F1

/-! ## Input report codec (input_reader_base.h / input_reader_base.cpp) -/

def INPUT_REPORT_SIZE : Nat := 22

def INPUT_REPORT_ID : Nat := 0x01

def BUTTON_BYTE_SPECIAL : Nat := 3

def BUTTON_BYTE_STOP_AND_CONTROL : Nat := 4

/-- Byte access into a report buffer; out-of-range reads default to 0. -/
def byteAt (buffer : List Nat) (i : Nat) : Nat := buffer.getD i 0

/-- Result of `readInputReport`: the returned bool, plus whether the
wrong-report-id error branch was taken (the branch that prints
`readInputReport Error: Wrong report ID` to `std::cerr`).  The source returns
plain `false` from both the `bytes_read <= 0` branch and the wrong-id branch;
only the log call distinguishes them. -/
structure ReadOutcome where
  success : Bool
  wrongIdLogged : Bool
  deriving DecidableEq

/-- Embedding of `readInputReport` (input_reader_base.cpp lines 19-55).  The
argument is the byte sequence delivered by `hid_read`; an empty list models
`bytes_read <= 0` (no data this frame). -/
def readInputReport (bytes : List Nat) : ReadOutcome :=
  if bytes.length ≤ 0 then ⟨false, false⟩
  else if byteAt bytes 0 ≠ INPUT_REPORT_ID then ⟨false, true⟩
  else ⟨true, false⟩

/-- Embedding of the index-based `isSpecialButtonPressed` overload
(input_reader_base.cpp lines 70-80): indices 0-5 test byte 3, indices 6-8
test byte 4 (the SYNC, QUANT, CAPTURE control bits). -/
def isSpecialButtonPressed (buffer : List Nat) (index : Nat) : Bool :=
  if index < 6 then
    (byteAt buffer BUTTON_BYTE_SPECIAL) &&& (1 <<< (7 - index)) != 0
  else
    (byteAt buffer BUTTON_BYTE_STOP_AND_CONTROL) &&& (1 <<< (3 - (index - 6))) != 0

/-- Embedding of `isStopButtonPressed` (input_reader_base.cpp lines 95-102). -/
def isStopButtonPressed (buffer : List Nat) (button : Nat) : Bool :=
  (byteAt buffer BUTTON_BYTE_STOP_AND_CONTROL) &&& (1 <<< (7 - button)) != 0

inductive ControlButton where
  | SYNC
  | QUANT
  | CAPTURE
  deriving DecidableEq

def BIT_MASK_SYNC : Nat := 0x08

def BIT_MASK_QUANT : Nat := 0x04

def BIT_MASK_CAPTURE : Nat := 0x02

/-- Embedding of `isControlButtonPressed` (src/unnamed/part_003 lines
139-173): byte 4 masked with 0x08 / 0x04 / 0x02. -/
def isControlButtonPressed (buffer : List Nat) (button : ControlButton) : Bool :=
  let control_byte := byteAt buffer BUTTON_BYTE_STOP_AND_CONTROL
  let button_mask :=
    match button with
    | ControlButton.SYNC => BIT_MASK_SYNC
    | ControlButton.QUANT => BIT_MASK_QUANT
    | ControlButton.CAPTURE => BIT_MASK_CAPTURE
  control_byte &&& button_mask != 0

/-- Embedding of `isMatrixButtonPressed` (input_reader_base.cpp lines
120-123): byte `(row/2)+1`, mask `(0x01 << (3-col)) << ((1-(row%2))*4)`. -/
def isMatrixButtonPressed (buffer : List Nat) (row col : Nat) : Bool :=
  let bit_mask := (1 <<< (3 - col)) <<< ((1 - row % 2) * 4)
  byteAt buffer (row / 2 + 1) &&& bit_mask != 0

/-! ## Analog normalizers (input_reader_fader.cpp / part_001) -/

def FADER_RAW_MIN : Nat := 0x000

def FADER_RAW_MAX : Nat := 0xFFF

namespace FaderInputReader

/-- Embedding of `FaderInputReader::rawToNormalized` (input_reader_fader.cpp
lines 138-143): `int n = (float)raw / (float)FADER_RAW_MAX * 127.0f`, the
float arithmetic modelled exactly over `ℚ` and the float-to-int cast of the
non-negative result as `Int.floor`. -/
def rawToNormalized (raw_value : Nat) : Int :=
  Int.floor ((raw_value : ℚ) / (FADER_RAW_MAX : ℚ) * 127)

/-- Embedding of `FaderInputReader::clampRawValue` (lines 151-159). -/
def clampRawValue (raw_value : Nat) : Nat :=
  if raw_value < FADER_RAW_MIN then FADER_RAW_MIN
  else if raw_value > FADER_RAW_MAX then FADER_RAW_MAX
  else raw_value

end FaderInputReader

/-- Modelled from the spec: the knob constants live in
`include/input_reader_knob.h`, which is not among the given sources; §6 of the
spec and the comments in src/unnamed/part_001 fix the knob raw range to the
12-bit range 0-4095. -/
def KNOB_RAW_MAX : Nat := 4095

namespace KnobInputReader

/-- Embedding of `KnobInputReader::rawToNormalized` (src/unnamed/part_001
lines 139-144), same float model as the fader normalizer. -/
def rawToNormalized (raw_value : Nat) : Int :=
  Int.floor ((raw_value : ℚ) / (KNOB_RAW_MAX : ℚ) * 127)

end KnobInputReader

/-! ## Change-detection layer (ControllerHandler, input_reader_fader.cpp) -/

/-- Events emitted through the `ControllerDelegate` callbacks. -/
inductive ControllerEvent where
  | buttonPress (index : Nat)
  | buttonRelease (index : Nat)
  | matrixButtonPress (row col : Nat)
  | matrixButtonRelease (row col : Nat)
  | knobChanged (index : Nat) (value : Int)
  | sliderChanged (index : Nat) (value : Int)
  deriving DecidableEq

/-- Events produced by one slot of the 9-slot loop of
`ControllerHandler::updateButtons` (input_reader_fader.cpp lines 297-308):
press on a rising edge, release on a falling edge, nothing otherwise. -/
def specialEdgeEvents (id : Nat) (prev cur : Bool) : List ControllerEvent :=
  if cur then
    (if prev then [] else [ControllerEvent.buttonPress id])
  else
    (if prev then [ControllerEvent.buttonRelease id] else [])

/-- The value `specialPressed[i]` holds after one slot of the loop. -/
def specialNextState (prev cur : Bool) : Bool :=
  if cur then (if prev then prev else true)
  else (if prev then false else prev)

/-- Events of one call of `ControllerHandler::updateButtons`
(input_reader_fader.cpp lines 295-315): the 9 special/control slots are
edge-detected against `specialPressed`; the stop loop (lines 310-314) fires
`onButtonPress(i)` on every frame in which the stop button reads pressed,
with no state and no release branch. -/
def updateButtonsEvents (specialPressed : List Bool) (buffer : List Nat) :
    List ControllerEvent :=
  ((List.range 9).flatMap fun i =>
    specialEdgeEvents (4 + i) (specialPressed.getD i false)
      (isSpecialButtonPressed buffer i))
  ++ ((List.range 4).flatMap fun i =>
    if isStopButtonPressed buffer i then [ControllerEvent.buttonPress i] else [])

/-- The `specialPressed` array after one call of `updateButtons`. -/
def updateButtonsState (specialPressed : List Bool) (buffer : List Nat) :
    List Bool :=
  (List.range 9).map fun i =>
    specialNextState (specialPressed.getD i false) (isSpecialButtonPressed buffer i)

/-- Events of one cell of `ControllerHandler::updateMatrixButtonStates`
(input_reader_fader.cpp lines 325-336). -/
def matrixEdgeEvents (row col : Nat) (prev cur : Bool) : List ControllerEvent :=
  if cur ≠ prev then
    (if cur then [ControllerEvent.matrixButtonPress row col]
     else [ControllerEvent.matrixButtonRelease row col])
  else []

/-- Events of one call of `ControllerHandler::updateMatrixButtonStates`
(input_reader_fader.cpp lines 317-343). -/
def updateMatrixButtonStatesEvents (prev : Nat → Nat → Bool) (buffer : List Nat) :
    List ControllerEvent :=
  (List.range 4).flatMap fun row =>
    (List.range 4).flatMap fun col =>
      matrixEdgeEvents row col (prev row col) (isMatrixButtonPressed buffer row col)

/-- The `previous_state` array after one call of `updateMatrixButtonStates`
(both `previous_state` and `current_state` are set to the current decode). -/
def updateMatrixButtonStatesState (prev : Nat → Nat → Bool) (buffer : List Nat) :
    Nat → Nat → Bool :=
  fun row col =>
    if row < 4 ∧ col < 4 then isMatrixButtonPressed buffer row col else prev row col

/-- Per-fader slice of `AnalogControlState`: `previous_fader_values[i]`,
`is_fader_value_dirty[i]`, `last_slider_change[i]` (the latter in integer
milliseconds). -/
structure FaderChannel where
  previous_value : Int
  is_dirty : Bool
  last_change : Int
  deriving DecidableEq

/-- One fader iteration of `ControllerHandler::updateFaderStates`
(input_reader_fader.cpp lines 370-391): a change while clean records `now`
and marks the channel dirty (a change while already dirty leaves the
timestamp alone); if the channel is dirty and strictly more than 50 ms have
passed since the recorded timestamp, `onSliderChanged(fader, current*2)`
fires, the dirty flag clears and the timestamp is reset to `now`; finally the
previous value is advanced to the current one. -/
def updateFaderChannel (fader : Nat) (st : FaderChannel) (current_value now : Int) :
    FaderChannel × List ControllerEvent :=
  let st1 :=
    if current_value ≠ st.previous_value then
      (if !st.is_dirty then { st with last_change := now, is_dirty := true } else st)
    else st
  if st1.is_dirty ∧ now - st1.last_change > 50 then
    ({ st1 with is_dirty := false, last_change := now, previous_value := current_value },
      [ControllerEvent.sliderChanged fader (current_value * 2)])
  else
    ({ st1 with previous_value := current_value }, [])

/-! ## LED output codec (led_controller_base.h / led_controller_base.cpp) -/

def LED_REPORT_SIZE : Nat := 81

def LED_REPORT_ID : Nat := 0x80

def LED_BYTE_SPECIAL_START : Nat := 17

def LED_BYTE_CONTROL_START : Nat := 22

def LED_BYTE_MATRIX_START : Nat := 25

def LED_BYTE_STOP_START : Nat := 73

def MATRIX_LEDS_PER_BUTTON : Nat := 3

def MATRIX_ROWS : Nat := 4

def MATRIX_COLS : Nat := 4

structure BRGColor where
  blue : Nat
  red : Nat
  green : Nat
  deriving DecidableEq

inductive LEDColor where
  | black
  | red
  | orange
  | lightorange
  | warmyellow
  | yellow
  | lime
  | green
  | mint
  | cyan
  | turquise
  | blue
  | plum
  | violet
  | purple
  | magenta
  | fuchsia
  | white
  deriving DecidableEq

/-- The `LEDButton` enum of led_controller_base.h lines 245-254; values 0-7. -/
inductive LEDButton where
  | CAPTURE
  | QUANT
  | SYNC
  | BROWSE
  | SIZE
  | TYPE
  | REVERSE
  | SHIFT
  deriving DecidableEq

/-- The C cast `(int)button` on `LEDButton`. -/
def ledButtonIndex : LEDButton → Nat
  | LEDButton.CAPTURE => 0
  | LEDButton.QUANT => 1
  | LEDButton.SYNC => 2
  | LEDButton.BROWSE => 3
  | LEDButton.SIZE => 4
  | LEDButton.TYPE => 5
  | LEDButton.REVERSE => 6
  | LEDButton.SHIFT => 7

/-- Declared size of the `special_states` shadow array
(led_controller_base.cpp line 34: `static LEDState special_states[5]`). -/
def SPECIAL_STATES_SIZE : Nat := 5

/-- The index into `special_states` at which `setButtonLED` stores the
clamped brightness when `store_led_state` holds (led_controller_base.cpp
lines 452-464: `int index = (int)button; ... special_states[index] = ...`). -/
def setButtonLEDStoreIndex (button : LEDButton) : Nat := ledButtonIndex button

/-- Embedding of `convertTo7Bit` (led_controller_base.cpp lines 50-64): clamp
brightness to [0,1], scale `value_8bit * 127 / 255 * brightness`, clamp to
[0,127], add 0.5 and truncate. -/
def convertTo7Bit (value_8bit : Nat) (brightness : ℚ) : Nat :=
  let b := if brightness < 0 then 0 else if brightness > 1 then 1 else brightness
  let result := (value_8bit : ℚ) * 127 / 255 * b
  let result2 := if result < 0 then 0 else if result > 127 then 127 else result
  (Int.floor (result2 + 1 / 2)).toNat

/-- Embedding of `getColorWithBrightness` (led_controller_base.cpp lines
148-265): the palette RGB triples, converted channelwise and assembled in
(blue, red, green) order. -/
def getColorWithBrightness (color : LEDColor) (brightness : ℚ) : BRGColor :=
  match color with
  | LEDColor.black =>
      ⟨convertTo7Bit 0 brightness, convertTo7Bit 0 brightness, convertTo7Bit 0 brightness⟩
  | LEDColor.red =>
      ⟨convertTo7Bit 0 brightness, convertTo7Bit 255 brightness, convertTo7Bit 0 brightness⟩
  | LEDColor.orange =>
      ⟨convertTo7Bit 45 brightness, convertTo7Bit 255 brightness, convertTo7Bit 97 brightness⟩
  | LEDColor.lightorange =>
      ⟨convertTo7Bit 0 brightness, convertTo7Bit 255 brightness, convertTo7Bit 148 brightness⟩
  | LEDColor.warmyellow =>
      ⟨convertTo7Bit 0 brightness, convertTo7Bit 255 brightness, convertTo7Bit 213 brightness⟩
  | LEDColor.yellow =>
      ⟨convertTo7Bit 0 brightness, convertTo7Bit 255 brightness, convertTo7Bit 255 brightness⟩
  | LEDColor.lime =>
      ⟨convertTo7Bit 0 brightness, convertTo7Bit 144 brightness, convertTo7Bit 255 brightness⟩
  | LEDColor.green =>
      ⟨convertTo7Bit 0 brightness, convertTo7Bit 0 brightness, convertTo7Bit 255 brightness⟩
  | LEDColor.mint =>
      ⟨convertTo7Bit 165 brightness, convertTo7Bit 0 brightness, convertTo7Bit 255 brightness⟩
  | LEDColor.cyan =>
      ⟨convertTo7Bit 255 brightness, convertTo7Bit 0 brightness, convertTo7Bit 255 brightness⟩
  | LEDColor.turquise =>
      ⟨convertTo7Bit 255 brightness, convertTo7Bit 0 brightness, convertTo7Bit 206 brightness⟩
  | LEDColor.blue =>
      ⟨convertTo7Bit 255 brightness, convertTo7Bit 0 brightness, convertTo7Bit 49 brightness⟩
  | LEDColor.plum =>
      ⟨convertTo7Bit 218 brightness, convertTo7Bit 69 brightness, convertTo7Bit 49 brightness⟩
  | LEDColor.violet =>
      ⟨convertTo7Bit 217 brightness, convertTo7Bit 125 brightness, convertTo7Bit 41 brightness⟩
  | LEDColor.purple =>
      ⟨convertTo7Bit 255 brightness, convertTo7Bit 229 brightness, convertTo7Bit 18 brightness⟩
  | LEDColor.magenta =>
      ⟨convertTo7Bit 255 brightness, convertTo7Bit 255 brightness, convertTo7Bit 0 brightness⟩
  | LEDColor.fuchsia =>
      ⟨convertTo7Bit 136 brightness, convertTo7Bit 255 brightness, convertTo7Bit 0 brightness⟩
  | LEDColor.white =>
      ⟨convertTo7Bit 255 brightness, convertTo7Bit 255 brightness, convertTo7Bit 255 brightness⟩

/-- Buffer effect of the `BRGColor` overload of `setMatrixButtonLED`
(led_controller_base.cpp lines 417-436): three bytes at
`LED_BYTE_MATRIX_START + (row*4+col)*3` receive blue, red, green. -/
def setMatrixButtonLEDBuffer (row col : Nat) (color : BRGColor) (led_buffer : List Nat) :
    List Nat :=
  let button_index := row * MATRIX_COLS + col
  let base_byte := LED_BYTE_MATRIX_START + button_index * MATRIX_LEDS_PER_BUTTON
  ((led_buffer.set base_byte color.blue).set (base_byte + 1) color.red).set
    (base_byte + 2) color.green

/-- Buffer effect of `setStopButtonLED` (led_controller_base.cpp lines
501-533): both LED bytes of the stop button receive the converted
brightness. -/
def setStopButtonLEDBuffer (index : Nat) (brightness : ℚ) (led_buffer : List Nat) :
    List Nat :=
  let led_value := convertTo7Bit 255 brightness
  let left_byte := LED_BYTE_STOP_START + (7 - index * 2)
  let right_byte := LED_BYTE_STOP_START + (7 - index * 2) - 1
  (led_buffer.set right_byte led_value).set left_byte led_value

/-- Buffer effect of `setButtonLED` (led_controller_base.cpp lines 452-489):
one byte, in the control region for indices 0-2 and the special region for
indices 3-7. -/
def setButtonLEDBuffer (button : LEDButton) (brightness : ℚ) (led_buffer : List Nat) :
    List Nat :=
  let index := ledButtonIndex button
  let led_value := convertTo7Bit 255 brightness
  let byte_position :=
    if index < 3 then LED_BYTE_CONTROL_START + index
    else LED_BYTE_SPECIAL_START + (index - 3)
  led_buffer.set byte_position led_value

/-- The mutable state of led_controller_base.cpp that the matrix-LED claims
touch: the 81-byte hardware buffer and the `matrix_states` shadow table. -/
structure LEDControllerState where
  led_buffer : List Nat
  matrix_states : Nat → Nat → LEDColor × ℚ

/-- Embedding of `isValidMatrixPosition` (led_controller_base.cpp lines
74-76): rows and columns 1-4. -/
def isValidMatrixPosition (row col : Nat) : Bool :=
  decide (1 ≤ row ∧ row ≤ MATRIX_ROWS ∧ 1 ≤ col ∧ col ≤ MATRIX_COLS)

/-- Embedding of the `BRGColor` overload of `setMatrixButtonLED`
(led_controller_base.cpp lines 417-436) on the full LED state.  The source
writes the three buffer bytes and sends the report; it contains no write to
`matrix_states`, so the `store_led_state` parameter has no effect. -/
def setMatrixButtonLED (row col : Nat) (color : BRGColor) (_store_led_state : Bool)
    (s : LEDControllerState) : LEDControllerState :=
  { s with led_buffer := setMatrixButtonLEDBuffer row col color s.led_buffer }

/-- Embedding of the `LEDColor` overload of `setMatrixButtonLED`
(led_controller_base.cpp lines 413-415). -/
def setMatrixButtonLEDColor (row col : Nat) (color : LEDColor) (brightness : ℚ)
    (store_led_state : Bool) (s : LEDControllerState) : LEDControllerState :=
  setMatrixButtonLED row col (getColorWithBrightness color brightness) store_led_state s

/-- Embedding of `getMatrixButtonState` (led_controller_base.cpp lines
100-110). -/
def getMatrixButtonState (s : LEDControllerState) (row col : Nat) : LEDColor × ℚ :=
  if isValidMatrixPosition row col then s.matrix_states row col
  else (LEDColor.black, 0)

/-- The LED state right after `initializeLEDController` (led_controller_base.cpp
lines 280-326): buffer zeroed except `led_buffer[0] = LED_REPORT_ID`, every
matrix shadow entry `{LEDColor::black, 0.0f}`. -/
def initialLEDControllerState : LEDControllerState :=
  { led_buffer := (List.replicate LED_REPORT_SIZE 0).set 0 LED_REPORT_ID
  , matrix_states := fun _ _ => (LEDColor.black, 0) }

/-! ## Spec claims rendered as propositions

The following definitions follow the wording of the spec claims (not the
source); they exist to be compared against the embedded code. -/

/-- Byte index the C1 claim assigns to a row: rows 0 and 2 share one of the
two matrix bytes, rows 1 and 3 the other (`swapBytes` chooses which). -/
def c1ClaimByteIndex (swapBytes : Bool) (row : Nat) : Nat :=
  if row % 2 = 0 then (if swapBytes then 2 else 1)
  else (if swapBytes then 1 else 2)

/-- Nibble the C1 claim assigns to a row: the two rows sharing a byte occupy
its two nibbles (`hi02`, `hi13` choose which row takes the upper nibble). -/
def c1ClaimNibble (hi02 hi13 : Bool) (row : Nat) : Nat :=
  if row % 2 = 0 then
    (if row < 2 then (if hi02 then 1 else 0) else (if hi02 then 0 else 1))
  else
    (if row < 2 then (if hi13 then 1 else 0) else (if hi13 then 0 else 1))

/-- Claim C1 as stated: for some assignment of the row pair {0,2} and the
row pair {1,3} to the two matrix bytes and of rows to nibbles,
`isMatrixButtonPressed` tests the bit `3 - col` of the assigned nibble,
most-significant-column-first. -/
def claimC1MatrixLayout : Prop :=
  ∃ swapBytes hi02 hi13 : Bool, ∀ (buffer : List Nat) (row col : Nat),
    row < 4 → col < 4 →
    isMatrixButtonPressed buffer row col =
      Nat.testBit (byteAt buffer (c1ClaimByteIndex swapBytes row))
        (4 * c1ClaimNibble hi02 hi13 row + (3 - col))

/-- The consequence of claim C2 that identical consecutive frames emit
nothing: after `updateButtons` has processed a frame, processing the same
frame again emits no event. -/
def claimC2IdenticalFramesSilent : Prop :=
  ∀ (specialPressed : List Bool) (buffer : List Nat),
    updateButtonsEvents (updateButtonsState specialPressed buffer) buffer = []

/-- The consequence of claim C3 that, while dirty, no event is emitted until
at least 50 ms have elapsed since the value most recently changed: if a frame
changes the fader value, the next frame, arriving less than 50 ms later,
emits nothing. -/
def claimC3NoEventWithinWindowOfChange : Prop :=
  ∀ (fader : Nat) (st : FaderChannel) (current now current2 now2 : Int),
    current ≠ st.previous_value → now2 - now < 50 →
    (updateFaderChannel fader (updateFaderChannel fader st current now).1
      current2 now2).2 = []

/-- Claim C5 as stated: the result of `readInputReport` distinguishes
"nothing to decode this frame" (no bytes) from a decode failure (wrong
identifier). -/
def claimC5ResultDistinguishes : Prop :=
  ∀ bytes : List Nat, bytes ≠ [] → byteAt bytes 0 ≠ INPUT_REPORT_ID →
    (readInputReport bytes).success ≠ (readInputReport []).success

/-- The part of claim C7 that the special and control button groups share a
single byte: some byte position `k` determines both the six special-button
answers and all control-button answers. -/
def claimC7SharedByte : Prop :=
  ∃ k : Nat, ∀ b b2 : List Nat, byteAt b k = byteAt b2 k →
    (∀ i, i < 6 → isSpecialButtonPressed b i = isSpecialButtonPressed b2 i) ∧
    (∀ btn : ControlButton, isControlButtonPressed b btn = isControlButtonPressed b2 btn)

/-- The scenario report of claim C7: `[0x01, 0x00, 0x00, 0x80, 0x00, ...]`
padded to the 22-byte report size. -/
def scenarioC7 : List Nat := [0x01, 0, 0, 0x80] ++ List.replicate 18 0

/-- Whether an event belongs to the (non-matrix) button with the given
delegate index. -/
def isEventForButton (id : Nat) (e : ControllerEvent) : Bool :=
  match e with
  | ControllerEvent.buttonPress i => i == id
  | ControllerEvent.buttonRelease i => i == id
  | _ => false

/-- The sub-sequence of events concerning one (non-matrix) button. -/
def eventsForButton (id : Nat) (events : List ControllerEvent) : List ControllerEvent :=
  events.filter (isEventForButton id)

/-- Whether an event belongs to the matrix button at the given cell. -/
def isEventForMatrixButton (row col : Nat) (e : ControllerEvent) : Bool :=
  match e with
  | ControllerEvent.matrixButtonPress r c => r == row && c == col
  | ControllerEvent.matrixButtonRelease r c => r == row && c == col
  | _ => false

/-- The sub-sequence of events concerning one matrix button. -/
def eventsForMatrixButton (row col : Nat) (events : List ControllerEvent) :
    List ControllerEvent :=
  events.filter (isEventForMatrixButton row col)

/-! ## Helper lemmas -/

theorem and_pow_bne (x k : Nat) : (x &&& 2 ^ k != 0) = x.testBit k := by
  rw [Nat.and_two_pow]
  cases h : x.testBit k <;> simp

theorem convertTo7Bit_255_one : convertTo7Bit 255 1 = 127 := by
  norm_num [convertTo7Bit]
  rfl

theorem convertTo7Bit_0_one : convertTo7Bit 0 1 = 0 := by
  norm_num [convertTo7Bit]

theorem getColorWithBrightness_red_one :
    getColorWithBrightness LEDColor.red 1 = ⟨0, 127, 0⟩ := by
  simp [getColorWithBrightness, convertTo7Bit_255_one, convertTo7Bit_0_one]

theorem and_shift_bne (x a : Nat) : (x &&& 1 <<< a != 0) = x.testBit a := by
  rw [Nat.shiftLeft_eq, one_mul, and_pow_bne]

theorem and_shift2_bne (x a b : Nat) :
    (x &&& (1 <<< a) <<< b != 0) = x.testBit (a + b) := by
  rw [Nat.shiftLeft_eq, Nat.shiftLeft_eq, one_mul, Nat.mul_comm, ← pow_add,
    Nat.add_comm, and_pow_bne]

/-! ## Claim C1 -/

/-- C1 (counterexample): the claimed row pairing {0,2} / {1,3} is impossible:
with matrix bytes `0xFF, 0x00` the code reports rows 0 and 1 pressed, so rows
0 and 1 read the same byte, contradicting every assignment the claim
allows. -/
theorem c1_claim_layout_false : ¬ claimC1MatrixLayout := by
  rintro ⟨swapBytes, hi02, hi13, h⟩
  have h0 := h [0, 255, 0] 0 0 (by norm_num) (by norm_num)
  have h1 := h [0, 255, 0] 1 0 (by norm_num) (by norm_num)
  cases swapBytes
  · have hL : isMatrixButtonPressed [0, 255, 0] 1 0 = true := by decide
    have hB : byteAt [0, 255, 0] (c1ClaimByteIndex false 1) = 0 := by decide
    rw [hL, hB] at h1
    simp [Nat.zero_testBit] at h1
  · have hL : isMatrixButtonPressed [0, 255, 0] 0 0 = true := by decide
    have hB : byteAt [0, 255, 0] (c1ClaimByteIndex true 0) = 0 := by decide
    rw [hL, hB] at h0
    simp [Nat.zero_testBit] at h0

/-- C1 (amended): rows 0 and 1 occupy the two nibbles of matrix byte 1 (row 0
the upper nibble, row 1 the lower), rows 2 and 3 those of byte 2, and the
column index selects the bit within the nibble,
most-significant-column-first. -/
theorem c1_matrix_addressing : ∀ (buffer : List Nat) (row col : Nat),
    row < 4 → col < 4 →
    isMatrixButtonPressed buffer row col =
      Nat.testBit (byteAt buffer (if row ≤ 1 then 1 else 2))
        ((3 - col) + (if row % 2 = 0 then 4 else 0)) := by
  intro buffer row col hr _
  interval_cases row <;> simp [isMatrixButtonPressed, and_shift2_bne, and_shift_bne]

/-- Witness for `c1_matrix_addressing` at buffer `[0, 255, 0]`, row 0,
column 0. -/
theorem c1_matrix_addressing_witness :
    isMatrixButtonPressed [0, 255, 0] 0 0 =
      Nat.testBit (byteAt [0, 255, 0] (if (0 : Nat) ≤ 1 then 1 else 2))
        ((3 - 0) + (if (0 : Nat) % 2 = 0 then 4 else 0)) :=
  c1_matrix_addressing [0, 255, 0] 0 0 (by norm_num) (by norm_num)

/-! ## Claim C4 -/

/-- C4 (code bug): `setMatrixButtonLED(1, 1, red, 1.0, true)` writes the
quantized (blue, red, green) = (0, 127, 0) triple at the cell offset, but the
logical state store is untouched (the source never writes `matrix_states`),
so `getMatrixButtonState` still returns `(black, 0.0)`, not the requested
`(red, 1.0)`. -/
theorem c4_matrix_led_store_bug :
    ((setMatrixButtonLEDColor 1 1 LEDColor.red 1 true
        initialLEDControllerState).led_buffer.getD 40 0 = 0 ∧
      (setMatrixButtonLEDColor 1 1 LEDColor.red 1 true
        initialLEDControllerState).led_buffer.getD 41 0 = 127 ∧
      (setMatrixButtonLEDColor 1 1 LEDColor.red 1 true
        initialLEDControllerState).led_buffer.getD 42 0 = 0) ∧
    (setMatrixButtonLEDColor 1 1 LEDColor.red 1 true
        initialLEDControllerState).matrix_states =
      initialLEDControllerState.matrix_states ∧
    getMatrixButtonState
      (setMatrixButtonLEDColor 1 1 LEDColor.red 1 true initialLEDControllerState)
      1 1 = (LEDColor.black, 0) ∧
    (LEDColor.black, (0 : ℚ)) ≠ (LEDColor.red, (1 : ℚ)) := by
  have hbuf : (setMatrixButtonLEDColor 1 1 LEDColor.red 1 true
      initialLEDControllerState).led_buffer =
      setMatrixButtonLEDBuffer 1 1 ⟨0, 127, 0⟩ initialLEDControllerState.led_buffer := by
    simp [setMatrixButtonLEDColor, setMatrixButtonLED, getColorWithBrightness_red_one]
  refine ⟨⟨?_, ?_, ?_⟩, rfl, rfl, by simp⟩ <;> rw [hbuf] <;> decide

/-! ## Claim C5 -/

/-- C5 (counterexample): the returned value does not distinguish the no-data
case from the wrong-identifier case; both produce `false`. -/
theorem c5_claim_distinguishes_false : ¬ claimC5ResultDistinguishes := by
  intro h
  exact h [2] (by decide) (by decide) (by decide)

/-- C5 (amended): both the no-data case and the wrong-identifier case return
`false`; only the logged wrong-id error distinguishes them. -/
theorem c5_read_outcome :
    readInputReport [] = ⟨false, false⟩ ∧
    (∀ (b : Nat) (rest : List Nat), b ≠ INPUT_REPORT_ID →
      readInputReport (b :: rest) = ⟨false, true⟩) ∧
    (∀ (b : Nat) (rest : List Nat), b ≠ INPUT_REPORT_ID →
      (readInputReport (b :: rest)).success = (readInputReport []).success) := by
  have h2 : ∀ (b : Nat) (rest : List Nat), b ≠ INPUT_REPORT_ID →
      readInputReport (b :: rest) = ⟨false, true⟩ := by
    intro b rest h
    simp [readInputReport, byteAt, h]
  exact ⟨by decide, h2, fun b rest h => by rw [h2 b rest h]; rfl⟩

/-- Witness for `c5_read_outcome` at the one-byte report `[2]`. -/
theorem c5_read_outcome_witness : readInputReport [2] = ⟨false, true⟩ :=
  c5_read_outcome.2.1 2 [] (by decide)

/-! ## Claim C6 -/

/-- C6 (confirmed): whenever the first delivered byte differs from the fixed
report identifier 0x01, `readInputReport` fails and takes the wrong-id error
branch, regardless of the remaining bytes. -/
theorem c6_bad_report_id_fails : ∀ (b : Nat) (rest : List Nat),
    b ≠ INPUT_REPORT_ID → readInputReport (b :: rest) = ⟨false, true⟩ := by
  intro b rest h
  simp [readInputReport, byteAt, h]

/-- Witness for `c6_bad_report_id_fails` at the report `[0, 1, 2]`. -/
theorem c6_bad_report_id_fails_witness : readInputReport [0, 1, 2] = ⟨false, true⟩ :=
  c6_bad_report_id_fails 0 [1, 2] (by decide)

/-! ## Claim C7 -/

/-- C7 (counterexample): no single byte determines both the special-button
and the control-button answers: the special group reads byte 3, the control
group byte 4. -/
theorem c7_claim_shared_byte_false : ¬ claimC7SharedByte := by
  rintro ⟨k, h⟩
  have hk3 : k = 3 := by
    by_contra hne
    have hbyte : byteAt ([] : List Nat) k = byteAt [0, 0, 0, 128] k := by
      have ha : byteAt ([] : List Nat) k = 0 := by simp [byteAt]
      have hb : byteAt [0, 0, 0, 128] k = 0 := by
        rcases k with _ | _ | _ | _ | n
        · rfl
        · rfl
        · rfl
        · exact absurd rfl hne
        · exact List.getD_eq_default _ _ (by simp)
      rw [ha, hb]
    have hsp := (h [] [0, 0, 0, 128] hbyte).1 0 (by norm_num)
    rw [show isSpecialButtonPressed [] 0 = false from by decide,
      show isSpecialButtonPressed [0, 0, 0, 128] 0 = true from by decide] at hsp
    exact Bool.false_ne_true hsp
  subst hk3
  have hbyte : byteAt ([] : List Nat) 3 = byteAt [0, 0, 0, 0, 8] 3 := by decide
  have hct := (h [] [0, 0, 0, 0, 8] hbyte).2 ControlButton.SYNC
  rw [show isControlButtonPressed [] ControlButton.SYNC = false from by decide,
    show isControlButtonPressed [0, 0, 0, 0, 8] ControlButton.SYNC = true from by decide] at hct
  exact Bool.false_ne_true hct

/-- C7 (amended): the special buttons (indices 0-5) read byte 3
most-significant-bit-first from bit 7; the stop buttons read byte 4 from bit
7; the control buttons share byte 4 with the stop group at bits 3, 2, 1
(sync, quant, capture), as do the extended special indices 6-8; and the
report with byte 3 = 0x80 decodes shift pressed and everything else not
pressed. -/
theorem c7_button_bit_addressing :
    (∀ (buffer : List Nat) (i : Nat), i < 6 →
      isSpecialButtonPressed buffer i =
        Nat.testBit (byteAt buffer BUTTON_BYTE_SPECIAL) (7 - i)) ∧
    (∀ (buffer : List Nat) (j : Nat), j < 3 →
      isSpecialButtonPressed buffer (6 + j) =
        Nat.testBit (byteAt buffer BUTTON_BYTE_STOP_AND_CONTROL) (3 - j)) ∧
    (∀ (buffer : List Nat) (b : Nat), b < 4 →
      isStopButtonPressed buffer b =
        Nat.testBit (byteAt buffer BUTTON_BYTE_STOP_AND_CONTROL) (7 - b)) ∧
    (∀ buffer : List Nat,
      isControlButtonPressed buffer ControlButton.SYNC =
        Nat.testBit (byteAt buffer BUTTON_BYTE_STOP_AND_CONTROL) 3 ∧
      isControlButtonPressed buffer ControlButton.QUANT =
        Nat.testBit (byteAt buffer BUTTON_BYTE_STOP_AND_CONTROL) 2 ∧
      isControlButtonPressed buffer ControlButton.CAPTURE =
        Nat.testBit (byteAt buffer BUTTON_BYTE_STOP_AND_CONTROL) 1) ∧
    (isSpecialButtonPressed scenarioC7 0 = true ∧
      (∀ i, i < 9 → 1 ≤ i → isSpecialButtonPressed scenarioC7 i = false) ∧
      (∀ b, b < 4 → isStopButtonPressed scenarioC7 b = false) ∧
      (∀ btn : ControlButton, isControlButtonPressed scenarioC7 btn = false) ∧
      (∀ r, r < 4 → ∀ c, c < 4 → isMatrixButtonPressed scenarioC7 r c = false)) := by
  refine ⟨?_, ?_, ?_, ?_, ?_⟩
  · intro buffer i hi
    simp [isSpecialButtonPressed, hi, and_shift_bne]
  · intro buffer j _
    have hnot : ¬ (6 + j < 6) := by omega
    simp [isSpecialButtonPressed, hnot, and_shift_bne]
  · intro buffer b _
    simp [isStopButtonPressed, and_shift_bne]
  · intro buffer
    refine ⟨?_, ?_, ?_⟩
    · rw [show isControlButtonPressed buffer ControlButton.SYNC =
          (byteAt buffer BUTTON_BYTE_STOP_AND_CONTROL &&& 2 ^ 3 != 0) from rfl,
        and_pow_bne]
    · rw [show isControlButtonPressed buffer ControlButton.QUANT =
          (byteAt buffer BUTTON_BYTE_STOP_AND_CONTROL &&& 2 ^ 2 != 0) from rfl,
        and_pow_bne]
    · rw [show isControlButtonPressed buffer ControlButton.CAPTURE =
          (byteAt buffer BUTTON_BYTE_STOP_AND_CONTROL &&& 2 ^ 1 != 0) from rfl,
        and_pow_bne]
  · refine ⟨by decide, by decide, by decide, ?_, by decide⟩
    intro btn
    cases btn <;> decide

/-- Witness for `c7_button_bit_addressing` at the scenario report and the
shift button. -/
theorem c7_button_bit_addressing_witness :
    isSpecialButtonPressed scenarioC7 0 =
      Nat.testBit (byteAt scenarioC7 BUTTON_BYTE_SPECIAL) (7 - 0) :=
  c7_button_bit_addressing.1 scenarioC7 0 (by norm_num)

/-! ## Claim C8 -/

/-- C8 (confirmed): both `rawToNormalized` functions are monotone
non-decreasing on the 12-bit range, map 0 to 0 and 4095 to 127 (the float
arithmetic is modelled exactly over the rationals). -/
theorem c8_normalizer_monotone :
    (∀ v w : Nat, v ≤ w → w ≤ 4095 →
      FaderInputReader.rawToNormalized v ≤ FaderInputReader.rawToNormalized w) ∧
    FaderInputReader.rawToNormalized 0 = 0 ∧
    FaderInputReader.rawToNormalized 4095 = 127 ∧
    (∀ v w : Nat, v ≤ w → w ≤ 4095 →
      KnobInputReader.rawToNormalized v ≤ KnobInputReader.rawToNormalized w) ∧
    KnobInputReader.rawToNormalized 0 = 0 ∧
    KnobInputReader.rawToNormalized 4095 = 127 := by
  have hmono : ∀ (M : Nat) (v w : Nat), v ≤ w →
      Int.floor ((v : ℚ) / (M : ℚ) * 127) ≤ Int.floor ((w : ℚ) / (M : ℚ) * 127) := by
    intro M v w hvw
    apply Int.floor_le_floor
    have hv : (v : ℚ) ≤ (w : ℚ) := by exact_mod_cast hvw
    have hM : (0 : ℚ) ≤ (M : ℚ) := by positivity
    gcongr
  refine ⟨fun v w hvw _ => hmono _ v w hvw, ?_, ?_,
    fun v w hvw _ => hmono _ v w hvw, ?_, ?_⟩
  · norm_num [FaderInputReader.rawToNormalized]
  · norm_num [FaderInputReader.rawToNormalized, FADER_RAW_MAX]
  · norm_num [KnobInputReader.rawToNormalized]
  · norm_num [KnobInputReader.rawToNormalized, KNOB_RAW_MAX]

/-- Witness for `c8_normalizer_monotone` at 100 ≤ 200. -/
theorem c8_normalizer_monotone_witness :
    FaderInputReader.rawToNormalized 100 ≤ FaderInputReader.rawToNormalized 200 ∧
    KnobInputReader.rawToNormalized 100 ≤ KnobInputReader.rawToNormalized 200 :=
  ⟨c8_normalizer_monotone.1 100 200 (by norm_num) (by norm_num),
    c8_normalizer_monotone.2.2.2.1 100 200 (by norm_num) (by norm_num)⟩

/-! ## Claim C10 -/

/-- C10 (code bug): the `special_states` shadow array has 5 entries, but
`setButtonLED` stores at index `(int)button`, which is 5, 6 and 7 for TYPE,
REVERSE and SHIFT — out of bounds.  (`startupSequence` calls
`setButtonLED(LEDButton::SHIFT, 0.0f, true)`, so the write is reached.) -/
theorem c10_special_states_index_bug :
    setButtonLEDStoreIndex LEDButton.SHIFT = 7 ∧
    ¬ setButtonLEDStoreIndex LEDButton.SHIFT < SPECIAL_STATES_SIZE ∧
    ¬ setButtonLEDStoreIndex LEDButton.REVERSE < SPECIAL_STATES_SIZE ∧
    ¬ setButtonLEDStoreIndex LEDButton.TYPE < SPECIAL_STATES_SIZE := by
  decide

/-! ## Claim C9 -/

theorem getD_set_self {l : List Nat} {i v : Nat} (h : i < l.length) :
    (l.set i v).getD i 0 = v := by
  rw [List.getD_eq_getElem?_getD, List.getElem?_set_self h]
  rfl

theorem getD_set_ne {l : List Nat} {i j v : Nat} (h : i ≠ j) :
    (l.set i v).getD j 0 = l.getD j 0 := by
  rw [List.getD_eq_getElem?_getD, List.getElem?_set_ne h, ← List.getD_eq_getElem?_getD]

/-- C9 (confirmed): on an 81-byte buffer, `setStopButtonLED` writes the
converted brightness exactly at its two stop-region offsets and changes no
other byte, and `setMatrixButtonLED` writes the three colour bytes exactly at
its cell offset and changes no other byte (the report identifier at byte 0
included). -/
theorem c9_led_setter_frame :
    (∀ index : Nat, index < 4 → ∀ (brightness : ℚ) (led_buffer : List Nat),
      led_buffer.length = LED_REPORT_SIZE →
      ((setStopButtonLEDBuffer index brightness led_buffer).getD
          (LED_BYTE_STOP_START + (7 - index * 2)) 0 = convertTo7Bit 255 brightness ∧
        (setStopButtonLEDBuffer index brightness led_buffer).getD
          (LED_BYTE_STOP_START + (7 - index * 2) - 1) 0 = convertTo7Bit 255 brightness) ∧
      ∀ j : Nat, j ≠ LED_BYTE_STOP_START + (7 - index * 2) →
        j ≠ LED_BYTE_STOP_START + (7 - index * 2) - 1 →
        (setStopButtonLEDBuffer index brightness led_buffer).getD j 0 =
          led_buffer.getD j 0) ∧
    (∀ row col : Nat, row < 4 → col < 4 → ∀ (color : BRGColor) (led_buffer : List Nat),
      led_buffer.length = LED_REPORT_SIZE →
      ((setMatrixButtonLEDBuffer row col color led_buffer).getD
          (LED_BYTE_MATRIX_START + (row * MATRIX_COLS + col) * MATRIX_LEDS_PER_BUTTON) 0 =
            color.blue ∧
        (setMatrixButtonLEDBuffer row col color led_buffer).getD
          (LED_BYTE_MATRIX_START + (row * MATRIX_COLS + col) * MATRIX_LEDS_PER_BUTTON + 1) 0 =
            color.red ∧
        (setMatrixButtonLEDBuffer row col color led_buffer).getD
          (LED_BYTE_MATRIX_START + (row * MATRIX_COLS + col) * MATRIX_LEDS_PER_BUTTON + 2) 0 =
            color.green) ∧
      ∀ j : Nat,
        j ≠ LED_BYTE_MATRIX_START + (row * MATRIX_COLS + col) * MATRIX_LEDS_PER_BUTTON →
        j ≠ LED_BYTE_MATRIX_START + (row * MATRIX_COLS + col) * MATRIX_LEDS_PER_BUTTON + 1 →
        j ≠ LED_BYTE_MATRIX_START + (row * MATRIX_COLS + col) * MATRIX_LEDS_PER_BUTTON + 2 →
        (setMatrixButtonLEDBuffer row col color led_buffer).getD j 0 =
          led_buffer.getD j 0) := by
  constructor
  · intro index hidx brightness led_buffer hlen
    have hlen81 : led_buffer.length = 81 := by simpa [LED_REPORT_SIZE] using hlen
    simp only [setStopButtonLEDBuffer, LED_BYTE_STOP_START]
    refine ⟨⟨?_, ?_⟩, ?_⟩
    · exact getD_set_self (by rw [List.length_set, hlen81]; omega)
    · rw [getD_set_ne (by omega)]
      exact getD_set_self (by rw [hlen81]; omega)
    · intro j h1 h2
      rw [getD_set_ne (by omega), getD_set_ne (by omega)]
  · intro row col hrow hcol color led_buffer hlen
    have hlen81 : led_buffer.length = 81 := by simpa [LED_REPORT_SIZE] using hlen
    have hbase : LED_BYTE_MATRIX_START +
        (row * MATRIX_COLS + col) * MATRIX_LEDS_PER_BUTTON ≤ 70 := by
      simp only [LED_BYTE_MATRIX_START, MATRIX_COLS, MATRIX_LEDS_PER_BUTTON]
      omega
    simp only [setMatrixButtonLEDBuffer]
    refine ⟨⟨?_, ?_, ?_⟩, ?_⟩
    · rw [getD_set_ne (by omega), getD_set_ne (by omega)]
      exact getD_set_self (by rw [hlen81]; omega)
    · rw [getD_set_ne (by omega)]
      exact getD_set_self (by rw [List.length_set, hlen81]; omega)
    · exact getD_set_self (by rw [List.length_set, List.length_set, hlen81]; omega)
    · intro j h1 h2 h3
      rw [getD_set_ne (by omega), getD_set_ne (by omega), getD_set_ne (by omega)]

/-- Witness for `c9_led_setter_frame`: stop button 0 writes byte 80 and
leaves byte 0 alone; matrix cell (0,0) writes byte 25 and leaves byte 0
alone, on the all-zero 81-byte buffer. -/
theorem c9_led_setter_frame_witness :
    (setStopButtonLEDBuffer 0 1 (List.replicate 81 0)).getD 80 0 =
        convertTo7Bit 255 1 ∧
    (setStopButtonLEDBuffer 0 1 (List.replicate 81 0)).getD 0 0 =
        (List.replicate 81 0).getD 0 0 ∧
    (setMatrixButtonLEDBuffer 0 0 ⟨1, 2, 3⟩ (List.replicate 81 0)).getD 25 0 = 1 ∧
    (setMatrixButtonLEDBuffer 0 0 ⟨1, 2, 3⟩ (List.replicate 81 0)).getD 0 0 =
        (List.replicate 81 0).getD 0 0 :=
  ⟨(c9_led_setter_frame.1 0 (by decide) 1 (List.replicate 81 0) rfl).1.1,
    (c9_led_setter_frame.1 0 (by decide) 1 (List.replicate 81 0) rfl).2 0
      (by decide) (by decide),
    (c9_led_setter_frame.2 0 0 (by decide) (by decide) ⟨1, 2, 3⟩
      (List.replicate 81 0) rfl).1.1,
    (c9_led_setter_frame.2 0 0 (by decide) (by decide) ⟨1, 2, 3⟩
      (List.replicate 81 0) rfl).2 0 (by decide) (by decide) (by decide)⟩

/-! ## Claim C2 -/

theorem specialNextState_eq (prev cur : Bool) : specialNextState prev cur = cur := by
  cases prev <;> cases cur <;> rfl

theorem filter_flatMap {α β : Type} (l : List α) (f : α → List β) (p : β → Bool) :
    (l.flatMap f).filter p = l.flatMap fun a => (f a).filter p := by
  induction l with
  | nil => rfl
  | cons a l ih => simp [List.flatMap_cons, List.filter_append, ih]

theorem filter_specialEdge (id id2 : Nat) (p q : Bool) :
    (specialEdgeEvents id2 p q).filter (isEventForButton id) =
      if id2 == id then specialEdgeEvents id2 p q else [] := by
  cases p <;> cases q <;> cases h : id2 == id <;>
    simp_all [specialEdgeEvents, isEventForButton]

theorem filter_stopBlock (id j : Nat) (b : Bool) :
    ((if b then [ControllerEvent.buttonPress j] else []).filter
        (isEventForButton id)) =
      if j == id then (if b then [ControllerEvent.buttonPress j] else [])
      else [] := by
  cases b <;> cases h : j == id <;> simp_all [isEventForButton]

theorem filter_matrixEdge (row col r c : Nat) (p q : Bool) :
    (matrixEdgeEvents r c p q).filter (isEventForMatrixButton row col) =
      if r == row && c == col then matrixEdgeEvents r c p q else [] := by
  cases p <;> cases q <;> cases h : (r == row && c == col) <;>
    simp_all [matrixEdgeEvents, isEventForMatrixButton]

/-- C2 (counterexample): the claim fails for stop buttons.  With stop button
0 held (byte 4 = 0x80), processing the same frame twice emits
`onButtonPress(0)` again on the second, identical frame: `updateButtons` has
no stored state and no release branch for stop buttons. -/
theorem c2_claim_identical_frames_false :
    updateButtonsEvents
        (updateButtonsState (List.replicate 9 false) [1, 0, 0, 0, 128])
        [1, 0, 0, 0, 128] = [ControllerEvent.buttonPress 0] ∧
    ¬ claimC2IdenticalFramesSilent := by
  refine ⟨by decide, fun h => ?_⟩
  have h2 := h (List.replicate 9 false) [1, 0, 0, 0, 128]
  exact absurd h2 (by decide)

/-- C2 (amended): the matrix buttons and the nine special/control slots are
edge-detected — per frame, each such button contributes exactly one `Pressed`
on a rising edge, one `Released` on a falling edge and nothing when the
decode equals the stored state, and the stored state advances to the current
decode; the stop buttons however emit `Pressed` on every frame in which they
decode as pressed and never emit `Released`. -/
theorem c2_button_edge_events :
    ∀ (specialPressed : List Bool) (buffer : List Nat),
    (∀ i, i < 9 →
      eventsForButton (4 + i) (updateButtonsEvents specialPressed buffer) =
        specialEdgeEvents (4 + i) (specialPressed.getD i false)
          (isSpecialButtonPressed buffer i) ∧
      (updateButtonsState specialPressed buffer).getD i false =
        isSpecialButtonPressed buffer i) ∧
    (∀ i, i < 4 →
      eventsForButton i (updateButtonsEvents specialPressed buffer) =
        (if isStopButtonPressed buffer i then [ControllerEvent.buttonPress i]
         else []) ∧
      ControllerEvent.buttonRelease i ∉ updateButtonsEvents specialPressed buffer) ∧
    (∀ (prev : Nat → Nat → Bool) (r c : Nat), r < 4 → c < 4 →
      eventsForMatrixButton r c (updateMatrixButtonStatesEvents prev buffer) =
        matrixEdgeEvents r c (prev r c) (isMatrixButtonPressed buffer r c) ∧
      updateMatrixButtonStatesState prev buffer r c =
        isMatrixButtonPressed buffer r c) := by
  intro sp buffer
  refine ⟨fun i hi => ⟨?_, ?_⟩, fun i hi => ?_, fun prev r c hr hc => ⟨?_, ?_⟩⟩
  · interval_cases i <;>
      simp [updateButtonsEvents, eventsForButton, List.filter_append, filter_flatMap,
        show List.range 9 = [0, 1, 2, 3, 4, 5, 6, 7, 8] from rfl,
        show List.range 4 = [0, 1, 2, 3] from rfl,
        List.flatMap_cons, List.flatMap_nil, filter_specialEdge, filter_stopBlock]
  · interval_cases i <;> exact specialNextState_eq _ _
  · have hfil : eventsForButton i (updateButtonsEvents sp buffer) =
        (if isStopButtonPressed buffer i then [ControllerEvent.buttonPress i]
         else []) := by
      interval_cases i <;>
        simp [updateButtonsEvents, eventsForButton, List.filter_append, filter_flatMap,
          show List.range 9 = [0, 1, 2, 3, 4, 5, 6, 7, 8] from rfl,
          show List.range 4 = [0, 1, 2, 3] from rfl,
          List.flatMap_cons, List.flatMap_nil, filter_specialEdge, filter_stopBlock]
    refine ⟨hfil, fun hmem => ?_⟩
    have h2 : ControllerEvent.buttonRelease i ∈
        eventsForButton i (updateButtonsEvents sp buffer) := by
      simp only [eventsForButton, List.mem_filter]
      exact ⟨hmem, by simp [isEventForButton]⟩
    rw [hfil] at h2
    by_cases hb : isStopButtonPressed buffer i <;> simp [hb] at h2
  · interval_cases r <;> interval_cases c <;>
      simp [updateMatrixButtonStatesEvents, eventsForMatrixButton, filter_flatMap,
        show List.range 4 = [0, 1, 2, 3] from rfl,
        List.flatMap_cons, List.flatMap_nil, List.filter_append, filter_matrixEdge]
  · interval_cases r <;> interval_cases c <;>
      simp [updateMatrixButtonStatesState]

/-- Witness for `c2_button_edge_events`: with all-false stored state and the
shift-pressed scenario report, slot 0 emits exactly one press event. -/
theorem c2_button_edge_events_witness :
    eventsForButton 4 (updateButtonsEvents (List.replicate 9 false) scenarioC7) =
      specialEdgeEvents 4 ((List.replicate 9 false).getD 0 false)
        (isSpecialButtonPressed scenarioC7 0) :=
  ((c2_button_edge_events (List.replicate 9 false) scenarioC7).1 0 (by norm_num)).1

/-! ## Claim C3 -/

/-- C3 (counterexample): starting clean with previous value 10, a change to
20 at t = 1000 marks the channel dirty; a further change to 30 at t = 1030
(the most recent change) does not refresh the timestamp; at t = 1060 — only
30 ms after the most recent change — an event fires anyway, because the code
measures the window from the frame that first set the dirty flag. -/
theorem c3_claim_quiescence_false :
    updateFaderChannel 0 ⟨10, false, 0⟩ 20 1000 = (⟨20, true, 1000⟩, []) ∧
    updateFaderChannel 0 ⟨20, true, 1000⟩ 30 1030 = (⟨30, true, 1000⟩, []) ∧
    updateFaderChannel 0 ⟨30, true, 1000⟩ 30 1060 =
      (⟨30, false, 1060⟩, [ControllerEvent.sliderChanged 0 60]) ∧
    (1060 : Int) - 1030 < 50 ∧
    ¬ claimC3NoEventWithinWindowOfChange := by
  refine ⟨by decide, by decide, by decide, by decide, fun h => ?_⟩
  have h2 := h 0 ⟨20, true, 1000⟩ 30 1030 30 1060 (by decide) (by decide)
  exact absurd h2 (by decide)

/-- C3 (amended): the quiescence window is measured from the timestamp
recorded when the channel became dirty, which is not refreshed by later
changes: a first change while clean records the timestamp, marks the channel
dirty and emits nothing; while dirty, frames within 50 ms of that recorded
timestamp emit nothing and leave the timestamp alone even if the value
changes again; the first frame strictly more than 50 ms after the recorded
timestamp emits exactly one event carrying twice the then-current value,
clears the dirty flag and resets the timestamp; the previous value advances
every frame. -/
theorem c3_fader_coalescing :
    ∀ (fader : Nat) (st : FaderChannel) (current now : Int),
    (st.is_dirty = false → current ≠ st.previous_value →
      updateFaderChannel fader st current now = (⟨current, true, now⟩, [])) ∧
    (st.is_dirty = true → now - st.last_change ≤ 50 →
      updateFaderChannel fader st current now =
        (⟨current, true, st.last_change⟩, [])) ∧
    (st.is_dirty = true → now - st.last_change > 50 →
      updateFaderChannel fader st current now =
        (⟨current, false, now⟩, [ControllerEvent.sliderChanged fader (current * 2)])) ∧
    (st.is_dirty = false → current = st.previous_value →
      updateFaderChannel fader st current now =
        (⟨current, false, st.last_change⟩, [])) := by
  intro fader st current now
  refine ⟨fun h1 h2 => ?_, fun h1 h2 => ?_, fun h1 h2 => ?_, fun h1 h2 => ?_⟩
  · simp [updateFaderChannel, h1, h2]
  · simp [updateFaderChannel, h1]
    omega
  · simp [updateFaderChannel, h1, h2]
  · simp [updateFaderChannel, h1, h2]

/-- Witness for `c3_fader_coalescing`: a dirty channel whose timestamp is 100
ms old emits exactly one doubled-value event on the next frame. -/
theorem c3_fader_coalescing_witness :
    updateFaderChannel 0 ⟨10, true, 0⟩ 20 100 =
      (⟨20, false, 100⟩, [ControllerEvent.sliderChanged 0 40]) :=
  (c3_fader_coalescing 0 ⟨10, true, 0⟩ 20 100).2.2.1 rfl (by decide)

end F1
